import Mathlib

/-!
# Verification of `nexradaws.NexradAwsInterface`

A shallow embedding of `src/nexradaws/nexradawsinterface.py`.

Modelling conventions:

* Python `datetime` values are modelled by `PyDatetime`: an integer wall-clock
  timestamp in seconds (proleptic Gregorian, seconds since 1970-01-01 of the
  wall-clock fields) together with an optional `tzinfo`.  Sub-second resolution
  is not modelled (every timestamp in the claims is a whole second).
* `tzinfo` objects are modelled by `TZInfo`: either the distinguished `pytz.UTC`
  singleton or any other tzinfo with its (possibly absent) fixed UTC offset in
  seconds.  Comparison of timezone-aware datetimes compares absolute instants
  (`wall - utcoffset`), as in Python.
* The storage listing collaborator (`boto3` / S3) is modelled as a function from
  the request key prefix (the empty string for the root listing, which passes no
  prefix) to a `ListResponse`; a `ListResponse` field is `none` exactly when the
  corresponding key is absent from the response dict, in which case Python's
  `resp.get(...)` yields `None` and iterating it raises a `TypeError`.
* Fallible code returns `Except`.
-/

namespace Nexradaws

/-- Python exception values reachable in the embedded code. -/
inductive PyError where
  /-- Python `TypeError`, e.g. from iterating `None`. -/
  | typeError
  /-- Python `ValueError`, e.g. from `pytz.utc.localize` on an aware datetime. -/
  | valueError
deriving DecidableEq, Repr

/-- A Python `tzinfo` object: either the `pytz.UTC` singleton or any other
tzinfo, carrying the UTC offset in seconds that its `utcoffset()` method
returns (`none` when `utcoffset()` returns `None`). -/
inductive TZInfo where
  | utc
  | other (off : Option Int)
deriving DecidableEq, Repr

/-- Embeds `tzinfo.utcoffset(dt)`, in seconds.  `pytz.UTC` has offset `0`. -/
def TZInfo.utcoffset : TZInfo → Option Int
  | .utc => some 0
  | .other o => o

/-- A Python `datetime`: wall-clock fields encoded as seconds since the epoch
of the wall clock (proleptic Gregorian), plus the optional attached tzinfo. -/
structure PyDatetime where
  wall : Int
  tzinfo : Option TZInfo
deriving DecidableEq, Repr

/-- Civil-from-days: convert a day count (days since 1970-01-01, proleptic
Gregorian) to `(year, month, day)`.  Standard era-based civil calendar
conversion. -/
def civilFromDays (z : Int) : Int × Int × Int :=
  let za : Int := z + 719468
  let era : Int := za.fdiv 146097
  let doe : Nat := (za - era * 146097).toNat
  let yoe : Nat := (doe - doe / 1460 + doe / 36524 - doe / 146096) / 365
  let y : Int := (yoe : Int) + era * 400
  let doy : Nat := doe - (365 * yoe + yoe / 4 - yoe / 100)
  let mp : Nat := (5 * doy + 2) / 153
  let d : Nat := doy - (153 * mp + 2) / 5 + 1
  let m : Nat := if mp < 10 then mp + 3 else mp - 9
  (y + (if m ≤ 2 then 1 else 0), (m : Int), (d : Int))

/-- Days-from-civil: day count (days since 1970-01-01) of a
`(year, month, day)` civil date, proleptic Gregorian. -/
def daysFromCivil (y m d : Int) : Int :=
  let y2 : Int := y - (if m ≤ 2 then 1 else 0)
  let era : Int := y2.fdiv 400
  let yoe : Nat := (y2 - era * 400).toNat
  let mp : Nat := (if m ≤ 2 then m + 9 else m - 3).toNat
  let doy : Nat := (153 * mp + 2) / 5 + (d - 1).toNat
  let doe : Nat := yoe * 365 + yoe / 4 - yoe / 100 + doy
  era * 146097 + (doe : Int) - 719468

/-- The day ordinal (days since 1970-01-01) of a datetime's wall clock. -/
def PyDatetime.dateOrdinal (d : PyDatetime) : Int := d.wall.fdiv 86400

/-- Python's `.year` attribute (a wall-clock field). -/
def PyDatetime.year (d : PyDatetime) : Int := (civilFromDays d.dateOrdinal).1

/-- Python's `.month` attribute (a wall-clock field). -/
def PyDatetime.month (d : PyDatetime) : Int := (civilFromDays d.dateOrdinal).2.1

/-- Python's `.day` attribute (a wall-clock field). -/
def PyDatetime.day (d : PyDatetime) : Int := (civilFromDays d.dateOrdinal).2.2

/-- The absolute instant a datetime denotes: wall clock minus UTC offset.
For a naive datetime (or one whose tzinfo has no offset) this is the wall
clock itself; Python comparison and subtraction of aware datetimes compare
and subtract these instants. -/
def PyDatetime.instant (d : PyDatetime) : Int :=
  d.wall - (match d.tzinfo with
            | some tz => tz.utcoffset.getD 0
            | none => 0)

/-- Build a timezone-aware UTC datetime from civil wall-clock fields. -/
def mkUTC (y mo dy h mi s : Int) : PyDatetime :=
  { wall := daysFromCivil y mo dy * 86400 + h * 3600 + mi * 60 + s
    tzinfo := some TZInfo.utc }

/-- Build a timezone-naive datetime from civil wall-clock fields. -/
def mkNaive (y mo dy h mi s : Int) : PyDatetime :=
  { wall := daysFromCivil y mo dy * 86400 + h * 3600 + mi * 60 + s
    tzinfo := none }

/-- Embeds `d + timedelta(days i)`: Python datetime-plus-timedelta arithmetic acts on
the wall-clock fields and keeps the tzinfo. -/
def addDays (d : PyDatetime) (i : Int) : PyDatetime :=
  { wall := d.wall + 86400 * i, tzinfo := d.tzinfo }

/-- Embeds `NexradAwsInterface._is_tzaware`:
`d.tzinfo is not None and d.tzinfo.utcoffset(d) is not None`. -/
def is_tzaware (d : PyDatetime) : Bool :=
  match d.tzinfo with
  | none => false
  | some tz => tz.utcoffset.isSome

/-- Embeds `pytz.utc.localize(d)`: attach UTC to a naive datetime without moving the
wall clock; raises `ValueError` when the datetime already has a tzinfo. -/
def utc_localize (d : PyDatetime) : Except PyError PyDatetime :=
  match d.tzinfo with
  | some _ => .error .valueError
  | none => .ok { wall := d.wall, tzinfo := some TZInfo.utc }

/-- Embeds `d.astimezone(pytz.UTC)`: instant-preserving conversion to UTC.  The source
only invokes this on timezone-aware datetimes (those with an offset); for
completeness an offset-less tzinfo is treated as offset `0`. -/
def astimezoneUTC (d : PyDatetime) : PyDatetime :=
  match d.tzinfo with
  | some tz => { wall := d.wall - tz.utcoffset.getD 0, tzinfo := some TZInfo.utc }
  | none => { wall := d.wall, tzinfo := some TZInfo.utc }

/-- One arm of `NexradAwsInterface._formattimerange`.  The source contains two
verbatim copies of this branch, one for `start` and one for `end`; it is
modelled once and applied to each:

```
if self._is_tzaware(start):
    if start.tzinfo != pytz.UTC:
        utcstart = start.astimezone(pytz.UTC)
    else:
        utcstart = start
else:
    utcstart = pytz.utc.localize(start)
```
-/
def formatone (d : PyDatetime) : Except PyError PyDatetime :=
  if is_tzaware d then
    if d.tzinfo ≠ some TZInfo.utc then .ok (astimezoneUTC d)
    else .ok d
  else utc_localize d

/-- Embeds `NexradAwsInterface._formattimerange(start, end)`. -/
def formattimerange (start stop : PyDatetime) :
    Except PyError (PyDatetime × PyDatetime) :=
  match formatone start with
  | .error e => .error e
  | .ok utcstart =>
    match formatone stop with
    | .error e => .error e
    | .ok utcend => .ok (utcstart, utcend)

/-- Embeds `NexradAwsInterface._datetime_range(start, end)`:

```
span = end - start
for i in range(0, span.days + 1):
    yield start + timedelta(days=i)
```

`end - start` on datetimes is the instant difference; `timedelta.days` is the
floor of the duration in whole days (Python timedelta normalisation), so
`span.days = (stop - start).fdiv 86400` and the loop runs for
`i = 0, ..., span.days` (empty when `span.days + 1 ≤ 0`). -/
def datetime_range (start stop : PyDatetime) : List PyDatetime :=
  (List.range (((stop.instant - start.instant).fdiv 86400 + 1).toNat)).map
    (fun i => addDays start (i : Int))

/-- Embeds `NexradAwsInterface._is_within_range(start, end, value)`:
`value >= start and value <= end` on (aware) datetimes, i.e. on instants. -/
def is_within_range (start stop value : PyDatetime) : Bool :=
  if value.instant ≥ start.instant && value.instant ≤ stop.instant then true
  else false

/-! ## The storage listing collaborator and the regular expressions -/

/-- One `list_objects` response.  `CommonPrefixes` holds the `Prefix` string of
each child-prefix entry, `Contents` the `Key` string of each object entry; a
field is `none` exactly when the key is absent from the response dict (as S3
returns when there are no entries of that kind), so that Python's
`resp.get('CommonPrefixes')` / `resp.get('Contents')` yields `None`. -/
structure ListResponse where
  CommonPrefixes : Option (List String)
  Contents : Option (List String)
deriving DecidableEq, Repr

/-- The storage listing collaborator: the response to a
`list_objects(Bucket='noaa-nexrad-level2', Prefix=p, Delimiter='/')` call,
as a function of the request prefix (the empty string stands for the root
listing, which passes no `Prefix` argument). -/
abbrev Bucket := String → ListResponse

/-- Regex dot: `.` matches any character except a newline (no `DOTALL`). -/
def reAny (c : Char) : Bool := c ≠ '\n'

/-- Embeds `self._year_re = re.compile('^(\d{4})/')` applied with `.match`, returning
`group(1)` on success.  `\d` is modelled as an ASCII digit (every key in the
bucket layout is ASCII). -/
def year_re (s : String) : Option String :=
  match s.toList with
  | c0 :: c1 :: c2 :: c3 :: c4 :: _ =>
    if c0.isDigit && c1.isDigit && c2.isDigit && c3.isDigit && c4 = '/' then
      some (String.mk [c0, c1, c2, c3])
    else none
  | _ => none

/-- Embeds `self._month_re = re.compile('^\d{4}/(\d{2})')` applied with `.match`,
returning `group(1)` on success. -/
def month_re (s : String) : Option String :=
  match s.toList with
  | c0 :: c1 :: c2 :: c3 :: c4 :: c5 :: c6 :: _ =>
    if c0.isDigit && c1.isDigit && c2.isDigit && c3.isDigit && c4 = '/'
        && c5.isDigit && c6.isDigit then
      some (String.mk [c5, c6])
    else none
  | _ => none

/-- Embeds `self._day_re = re.compile('^\d{4}/\d{2}/(\d{2})')` applied with `.match`,
returning `group(1)` on success. -/
def day_re (s : String) : Option String :=
  match s.toList with
  | c0 :: c1 :: c2 :: c3 :: c4 :: c5 :: c6 :: c7 :: c8 :: c9 :: _ =>
    if c0.isDigit && c1.isDigit && c2.isDigit && c3.isDigit && c4 = '/'
        && c5.isDigit && c6.isDigit && c7 = '/' && c8.isDigit && c9.isDigit then
      some (String.mk [c8, c9])
    else none
  | _ => none

/-- Embeds `self._radar_re = re.compile('^\d{4}/\d{2}/\d{2}/(....)/')` applied with
`.match`, returning `group(1)` on success. -/
def radar_re (s : String) : Option String :=
  match s.toList with
  | c0 :: c1 :: c2 :: c3 :: c4 :: c5 :: c6 :: c7 :: c8 :: c9 :: c10 :: c11
      :: c12 :: c13 :: c14 :: c15 :: _ =>
    if c0.isDigit && c1.isDigit && c2.isDigit && c3.isDigit && c4 = '/'
        && c5.isDigit && c6.isDigit && c7 = '/' && c8.isDigit && c9.isDigit
        && c10 = '/' && reAny c11 && reAny c12 && reAny c13 && reAny c14
        && c15 = '/' then
      some (String.mk [c11, c12, c13, c14])
    else none
  | _ => none

/-- The `(.*.gz)` group of the scan pattern, applied to the part of the key
after the `YYYY/MM/DD/SITE/` segment: the greedy `.*` makes the group the
longest newline-free prefix of length at least 3 ending in the two literal
characters `g`, `z` (the dot before `gz` is an unescaped `.`, matching any
non-newline character). -/
def scanGroup (r : List Char) : Option String :=
  (List.range (r.length + 1)).reverse.findSome? fun j =>
    if 3 ≤ j then
      let p := r.take j
      if p.all reAny && p.drop (j - 2) = ['g', 'z'] then some (String.mk p)
      else none
    else none

/-- Embeds `self._scan_re = re.compile('^\d{4}/\d{2}/\d{2}/..../(.*.gz)')` applied
with `.match`, returning `group(1)` on success. -/
def scan_re (s : String) : Option String :=
  match s.toList with
  | c0 :: c1 :: c2 :: c3 :: c4 :: c5 :: c6 :: c7 :: c8 :: c9 :: c10 :: c11
      :: c12 :: c13 :: c14 :: c15 :: rest =>
    if c0.isDigit && c1.isDigit && c2.isDigit && c3.isDigit && c4 = '/'
        && c5.isDigit && c6.isDigit && c7 = '/' && c8.isDigit && c9.isDigit
        && c10 = '/' && reAny c11 && reAny c12 && reAny c13 && reAny c14
        && c15 = '/' then
      scanGroup rest
    else none
  | _ => none

/-! ## The catalog browsing methods -/

/-- A `NexradAwsFile` metadata record.  Its class lives in
`resources/nexradawsfile.py`, which is not part of the sources; modelled from
the spec (§3 RemoteScanRecord): the immutable listing key plus the scan
timestamp, a UTC datetime derived at construction from the filename token by
the external timestamp-parser collaborator (spec §1, §6), which is modelled
as a parameter `stf` mapping the listing key to the UTC instant. -/
structure NexradAwsFile where
  key : String
  scan_time : PyDatetime
deriving DecidableEq, Repr

/-- Modelled from the spec: construction of a `NexradAwsFile` from one listing
entry, with `stf` the external filename-timestamp collaborator (spec §6)
giving the UTC scan instant for the key. -/
def mkNexradAwsFile (stf : String → Int) (key : String) : NexradAwsFile :=
  { key := key, scan_time := { wall := stf key, tzinfo := some TZInfo.utc } }

/-- Embeds `NexradAwsInterface.get_available_years()`.  Iterating
`resp.get('CommonPrefixes')` raises `TypeError` when the field is absent. -/
def get_available_years (bucket : Bucket) : Except PyError (List String) :=
  match (bucket "").CommonPrefixes with
  | none => .error .typeError
  | some entries =>
    .ok (entries.foldl (fun years each =>
      match year_re each with
      | some g => years ++ [g]
      | none => years) [])

/-- Embeds `NexradAwsInterface.get_available_months(year)`. -/
def get_available_months (bucket : Bucket) (year : String) :
    Except PyError (List String) :=
  match (bucket (year ++ "/")).CommonPrefixes with
  | none => .error .typeError
  | some entries =>
    .ok (entries.foldl (fun months each =>
      match month_re each with
      | some g => months ++ [g]
      | none => months) [])

/-- Embeds `NexradAwsInterface.get_available_days(year, month)`. -/
def get_available_days (bucket : Bucket) (year month : String) :
    Except PyError (List String) :=
  match (bucket (year ++ "/" ++ month ++ "/")).CommonPrefixes with
  | none => .error .typeError
  | some entries =>
    .ok (entries.foldl (fun days each =>
      match day_re each with
      | some g => days ++ [g]
      | none => days) [])

/-- Embeds `NexradAwsInterface.get_available_radars(year, month, day)`. -/
def get_available_radars (bucket : Bucket) (year month day : String) :
    Except PyError (List String) :=
  match (bucket (year ++ "/" ++ month ++ "/" ++ day ++ "/")).CommonPrefixes with
  | none => .error .typeError
  | some entries =>
    .ok (entries.foldl (fun radars each =>
      match radar_re each with
      | some g => radars ++ [g]
      | none => radars) [])

/-- Embeds `NexradAwsInterface.get_available_scans(year, month, day, radar)`. -/
def get_available_scans (bucket : Bucket) (stf : String → Int)
    (year month day radar : String) : Except PyError (List NexradAwsFile) :=
  match (bucket (year ++ "/" ++ month ++ "/" ++ day ++ "/" ++ radar ++ "/")).Contents with
  | none => .error .typeError
  | some entries =>
    .ok (entries.foldl (fun scans scan =>
      match scan_re scan with
      | some _ => scans ++ [mkNexradAwsFile stf scan]
      | none => scans) [])

/-- Embeds `'{0:0>2}'.format(n)`: pad the decimal rendering on the left with `0` to a
minimum width of 2. -/
def pyformat02 (n : Int) : String :=
  let s := toString n
  if s.length < 2 then String.mk (List.replicate (2 - s.length) '0') ++ s else s

/-- Embeds `NexradAwsInterface.get_available_scans_in_range(start, end, radar)`. -/
def get_available_scans_in_range (bucket : Bucket) (stf : String → Int)
    (start stop : PyDatetime) (radar : String) :
    Except PyError (List NexradAwsFile) :=
  match formattimerange start stop with
  | .error e => .error e
  | .ok (utcstart, utcend) =>
    (datetime_range utcstart utcend).foldlM (fun scans day =>
      match get_available_scans bucket stf (pyformat02 day.year)
          (pyformat02 day.month) (pyformat02 day.day) radar.toUpper with
      | .error e => .error e
      | .ok availscans =>
        .ok (scans ++ availscans.filter (fun scan =>
          is_within_range utcstart utcend scan.scan_time))) []

/-! ## The retrieval manager (`download`) -/

/-- An `OSError` as raised by `os.makedirs`, carrying its `errno`. -/
structure OSError where
  errno : Int
deriving DecidableEq, Repr

/-- Value of `errno.EEXIST`. -/
def EEXIST : Int := 17

/-- Embeds `NexradAwsInterface._make_directories(path)`:

```
try:
    os.makedirs(path)
except OSError as exc:
    if exc.errno == errno.EEXIST and os.path.isdir(path):
        pass
    else:
        raise
```

The filesystem collaborator is modelled by the `makedirs` and `isdir`
functions (its state at the time of the call). -/
def make_directories (makedirs : String → Except OSError Unit)
    (isdir : String → Bool) (path : String) : Except OSError Unit :=
  match makedirs path with
  | .ok _ => .ok ()
  | .error exc =>
    if exc.errno = EEXIST && isdir path then .ok ()
    else .error exc

/-- An error escaping `download`: a propagated directory-creation `OSError` or
a propagated transport error from `Bucket.download_file` (transport errors are
abstract tokens). -/
inductive DownloadError where
  | os (e : OSError)
  | transfer (e : Nat)
deriving DecidableEq, Repr

/-- The collaborators `download` uses.  The stateful download transport is
modelled as a scripted response per call index (explicit state passing: the
call counter is threaded through the batch, one call per processed record, so
a retrying implementation would consume further script entries). -/
structure RetrievalEnv where
  makedirs : String → Except OSError Unit
  isdir : String → Bool
  download_file : Nat → String → String → Except Nat Unit

/-- A `LocalNexradFile`.  Its class lives in `resources/localnexradfile.py`,
which is not part of the sources; modelled from the spec (§3 LocalScanFile):
a back-reference to the originating record plus the local path. -/
structure LocalNexradFile where
  awsfile : NexradAwsFile
  filepath : String
deriving DecidableEq, Repr

/-- Split a character list at `'/'` separators (the key-segment split). -/
def splitSlash : List Char → List (List Char)
  | [] => [[]]
  | c :: cs =>
    if c = '/' then [] :: splitSlash cs
    else
      match splitSlash cs with
      | [] => [[c]]
      | p :: ps => (c :: p) :: ps

/-- Modelled from the spec: `NexradAwsFile.create_filepath(basepath,
keep_aws_folders)` lives in the missing `resources/nexradawsfile.py`.  Per
spec §4.6(a): with `keep_aws_folders` the year/month/day/radar key segments
become nested directories under `basepath`, otherwise the file goes directly
under `basepath` by filename; returns `(dirpath, filepath)`. -/
def create_filepath (f : NexradAwsFile) (basepath : String)
    (keep_aws_folders : Bool) : String × String :=
  let parts := (splitSlash f.key.toList).map String.mk
  let filename := parts.getLastD f.key
  let dirpath :=
    if keep_aws_folders then
      basepath ++ "/" ++ String.intercalate "/" parts.dropLast
    else basepath
  (dirpath, dirpath ++ "/" ++ filename)

/-- One iteration of the `download` loop body: compute the target paths,
ensure the directory, transfer the bytes (consuming one transport call), and
build the `LocalNexradFile`. -/
def processRecord (env : RetrievalEnv) (basepath : String) (keep : Bool)
    (n : Nat) (awsfile : NexradAwsFile) :
    Except DownloadError (LocalNexradFile × Nat) :=
  let dirpath := (create_filepath awsfile basepath keep).1
  let filepath := (create_filepath awsfile basepath keep).2
  match make_directories env.makedirs env.isdir dirpath with
  | .error e => .error (.os e)
  | .ok _ =>
    match env.download_file n awsfile.key filepath with
    | .error te => .error (.transfer te)
    | .ok _ => .ok ({ awsfile := awsfile, filepath := filepath }, n + 1)

/-- The `download` loop over a batch, threading the accumulated
`localfiles` list and the transport call counter. -/
def downloadFrom (env : RetrievalEnv) (basepath : String) (keep : Bool) :
    List NexradAwsFile → List LocalNexradFile → Nat →
    Except DownloadError (List LocalNexradFile × Nat)
  | [], acc, n => .ok (acc, n)
  | f :: rest, acc, n =>
    match processRecord env basepath keep n f with
    | .error e => .error e
    | .ok (lf, n') => downloadFrom env basepath keep rest (acc ++ [lf]) n'

/-- Embeds `NexradAwsInterface.download(nexradawsfiles, basepath, keep_aws_folders)`,
the `isinstance(nexradawsfiles, list)` branch: process each record in order;
any exception escapes immediately and no list is returned. -/
def download (env : RetrievalEnv) (files : List NexradAwsFile)
    (basepath : String) (keep_aws_folders : Bool) :
    Except DownloadError (List LocalNexradFile) :=
  (downloadFrom env basepath keep_aws_folders files [] 0).map Prod.fst

/-- Embeds `NexradAwsInterface.download` on a single (non-list) record: the `else`
branch of the `isinstance` dispatch. -/
def download_single (env : RetrievalEnv) (f : NexradAwsFile)
    (basepath : String) (keep_aws_folders : Bool) :
    Except DownloadError (List LocalNexradFile) :=
  match processRecord env basepath keep_aws_folders 0 f with
  | .error e => .error e
  | .ok (lf, _) => .ok [lf]

/-! ## Helper lemmas -/

/-- The append-accumulate listing loop collects exactly the successful
matches, in order. -/
theorem foldl_collect (g : String → Option String) (es : List String)
    (acc : List String) :
    es.foldl (fun ys e => match g e with
      | some x => ys ++ [x]
      | none => ys) acc = acc ++ es.filterMap g := by
  induction es generalizing acc with
  | nil => simp
  | cons e es ih =>
    cases hg : g e <;>
      simp [List.foldl_cons, hg, ih, List.filterMap_cons]

/-- The scan-listing loop collects, for each entry whose key matches, the
record built from the entry, in order. -/
theorem foldl_collect_keyed (g : String → Option String)
    (h : String → NexradAwsFile) (es : List String) (acc : List NexradAwsFile) :
    es.foldl (fun ys e => match g e with
      | some _ => ys ++ [h e]
      | none => ys) acc
      = acc ++ es.filterMap (fun e => if (g e).isSome then some (h e) else none) := by
  induction es generalizing acc with
  | nil => simp
  | cons e es ih =>
    cases hg : g e <;>
      simp [List.foldl_cons, hg, ih, List.filterMap_cons]

/-- Every successful output of the normalisation branch carries `pytz.UTC`. -/
theorem formatone_tz_utc {d u : PyDatetime} (h : formatone d = .ok u) :
    u.tzinfo = some TZInfo.utc := by
  rcases hd : d.tzinfo with _ | tz
  · simp [formatone, is_tzaware, utc_localize, hd] at h
    simp [← h]
  · rcases tz with _ | off
    · simp [formatone, is_tzaware, hd, TZInfo.utcoffset] at h
      rw [← h]
      exact hd
    · rcases off with _ | o
      · simp [formatone, is_tzaware, utc_localize, hd, TZInfo.utcoffset] at h
      · simp [formatone, is_tzaware, hd, TZInfo.utcoffset, astimezoneUTC] at h
        simp [← h]

/-- A datetime already carrying `pytz.UTC` passes through the normalisation
branch unchanged. -/
theorem formatone_utc_id {d : PyDatetime} (hd : d.tzinfo = some TZInfo.utc) :
    formatone d = .ok d := by
  simp [formatone, is_tzaware, hd, TZInfo.utcoffset]

/-- The normalisation branch preserves the absolute instant. -/
theorem formatone_instant {d u : PyDatetime} (h : formatone d = .ok u) :
    u.instant = d.instant := by
  rcases hd : d.tzinfo with _ | tz
  · simp [formatone, is_tzaware, utc_localize, hd] at h
    simp [← h, PyDatetime.instant, hd, TZInfo.utcoffset]
  · rcases tz with _ | off
    · simp [formatone, is_tzaware, hd, TZInfo.utcoffset] at h
      rw [← h]
    · rcases off with _ | o
      · simp [formatone, is_tzaware, utc_localize, hd, TZInfo.utcoffset] at h
      · simp [formatone, is_tzaware, hd, TZInfo.utcoffset, astimezoneUTC] at h
        simp [← h, PyDatetime.instant, hd, TZInfo.utcoffset]

/-- The normalisation branch keeps the wall clock of a naive datetime. -/
theorem formatone_wall_naive {d u : PyDatetime} (hd : d.tzinfo = none)
    (h : formatone d = .ok u) : u.wall = d.wall := by
  simp [formatone, is_tzaware, utc_localize, hd] at h
  simp [← h]

/-- The normalisation branch succeeds on every naive or aware datetime. -/
theorem formatone_ok {d : PyDatetime}
    (h : d.tzinfo = none ∨ is_tzaware d = true) :
    ∃ u, formatone d = .ok u := by
  rcases h with hd | hd
  · exact ⟨{ wall := d.wall, tzinfo := some TZInfo.utc },
      by simp [formatone, is_tzaware, utc_localize, hd]⟩
  · unfold formatone
    rw [hd]
    by_cases hu : d.tzinfo ≠ some TZInfo.utc <;> simp [hu]

/-- Splitting the download loop over an appended batch. -/
theorem downloadFrom_append (env : RetrievalEnv) (bp : String) (keep : Bool)
    (xs ys : List NexradAwsFile) (acc : List LocalNexradFile) (n : Nat) :
    downloadFrom env bp keep (xs ++ ys) acc n =
      match downloadFrom env bp keep xs acc n with
      | .error e => .error e
      | .ok (acc', n') => downloadFrom env bp keep ys acc' n' := by
  induction xs generalizing acc n with
  | nil => simp [downloadFrom]
  | cons f rest ih =>
    simp only [List.cons_append, downloadFrom]
    cases processRecord env bp keep n f with
    | error e => rfl
    | ok p => exact ih (acc ++ [p.1]) p.2

/-- When every `Contents` listing is present but empty, the range-query fold
adds nothing and succeeds with its accumulator. -/
theorem scans_fold_empty (bucket : Bucket) (stf : String → Int)
    (h : ∀ p, (bucket p).Contents = some []) (us ue : PyDatetime)
    (radar : String) :
    ∀ (days : List PyDatetime) (acc : List NexradAwsFile),
      (days.foldlM (fun scans day =>
        match get_available_scans bucket stf (pyformat02 day.year)
            (pyformat02 day.month) (pyformat02 day.day) radar.toUpper with
        | .error e => .error e
        | .ok availscans =>
          .ok (scans ++ availscans.filter (fun scan =>
            is_within_range us ue scan.scan_time))) acc
        : Except PyError (List NexradAwsFile)) = .ok acc := by
  have hg : ∀ y m d r, get_available_scans bucket stf y m d r = .ok [] := by
    intro y m d r
    unfold get_available_scans
    rw [h]
    rfl
  intro days
  induction days with
  | nil => intro acc; rfl
  | cons day rest ih =>
    intro acc
    simpa [List.foldlM_cons, hg] using ih acc

/-! ## The claims -/

/-- Claim C5: For the key `"2013/05/31/KTLX/KTLX20130531_000358_V06.gz"`, the
prefix-parsing patterns extract year `"2013"`, month `"05"`, day `"31"`,
radar `"KTLX"`, and filename `"KTLX20130531_000358_V06.gz"`. -/
theorem claim_C5_prefix_parsing :
    year_re "2013/05/31/KTLX/KTLX20130531_000358_V06.gz" = some "2013"
    ∧ month_re "2013/05/31/KTLX/KTLX20130531_000358_V06.gz" = some "05"
    ∧ day_re "2013/05/31/KTLX/KTLX20130531_000358_V06.gz" = some "31"
    ∧ radar_re "2013/05/31/KTLX/KTLX20130531_000358_V06.gz" = some "KTLX"
    ∧ scan_re "2013/05/31/KTLX/KTLX20130531_000358_V06.gz"
        = some "KTLX20130531_000358_V06.gz" :=
  ⟨rfl, rfl, rfl, rfl, rfl⟩

/-- Claim C2 is a code bug; evaluation at the failing input. The claim says the day enumeration covers
every calendar date from start's date through end's date inclusive,
regardless of time-of-day; in particular an end two calendar days after the
start must yield 3 dates.  The code computes `span.days` as the floor of the
duration in whole days, so for `start = 2013-05-31T23:00Z` and
`end = 2013-06-02T01:00Z` (`start ≤ end`, end two calendar days later,
crossing a month boundary) it enumerates only the two dates 2013-05-31 and
2013-06-01 and never reaches end's calendar date. -/
theorem claim_C2_enumeration_eval :
    (mkUTC 2013 5 31 23 0 0).instant ≤ (mkUTC 2013 6 2 1 0 0).instant
    ∧ (datetime_range (mkUTC 2013 5 31 23 0 0) (mkUTC 2013 6 2 1 0 0)).map
        (fun d => (d.year, d.month, d.day)) = [(2013, 5, 31), (2013, 6, 1)] :=
  ⟨by decide, rfl⟩

/-- The catalog exhibiting the C1 range-query bug: the 2013-06-02 KTLX
partition holds one scan; every other listing is present but empty. -/
def c1bucket : Bucket := fun p =>
  if p = "2013/06/02/KTLX/" then
    { CommonPrefixes := none
      Contents := some ["2013/06/02/KTLX/KTLX20130602_003000_V06.gz"] }
  else { CommonPrefixes := none, Contents := some [] }

/-- Timestamp collaborator for the C1 catalog: the single scan's time is
2013-06-02T00:30:00Z. -/
def c1stf : String → Int := fun _ => daysFromCivil 2013 6 2 * 86400 + 1800

/-- Claim C1 is a code bug; evaluation at the failing input. The claim says the range query returns
exactly the per-day scans whose timestamp lies in the closed interval
`[start, end]`.  For `start = 2013-05-31T23:00Z`, `end = 2013-06-02T01:00Z`
and a catalog whose only scan is at 2013-06-02T00:30Z: that scan is in its
day's listing and inside the closed interval, yet the query returns the empty
list, because the day enumeration never lists the 2013-06-02 partition. -/
theorem claim_C1_rangequery_eval :
    get_available_scans c1bucket c1stf "2013" "06" "02" "KTLX"
      = .ok [mkNexradAwsFile c1stf "2013/06/02/KTLX/KTLX20130602_003000_V06.gz"]
    ∧ is_within_range (mkUTC 2013 5 31 23 0 0) (mkUTC 2013 6 2 1 0 0)
        (mkNexradAwsFile c1stf
          "2013/06/02/KTLX/KTLX20130602_003000_V06.gz").scan_time = true
    ∧ get_available_scans_in_range c1bucket c1stf (mkUTC 2013 5 31 23 0 0)
        (mkUTC 2013 6 2 1 0 0) "KTLX" = .ok [] :=
  ⟨rfl, rfl, rfl⟩

/-- Counterexample for C3: A listing response that contains no entries for
the partition because the `CommonPrefixes` key is absent (exactly what the
storage service returns for an empty partition) makes `get_available_years`
raise a `TypeError` (from iterating `None`) instead of returning an empty
list. -/
theorem claim_C3_counterexample :
    get_available_years (fun _ => { CommonPrefixes := none, Contents := none })
      = .error .typeError :=
  rfl

/-- Claim C3 as amended: Each listing call returns an empty list (rather than
raising) when the listing response carries the relevant field with an empty
entry list; for the range query, when every day's `Contents` field is present
but empty.  (When the field is absent from the response the call raises a
`TypeError` instead — see the counterexample.) -/
theorem claim_C3_empty_is_ok :
    (∀ bucket : Bucket, (bucket "").CommonPrefixes = some [] →
      get_available_years bucket = .ok [])
    ∧ (∀ (bucket : Bucket) (year : String),
        (bucket (year ++ "/")).CommonPrefixes = some [] →
        get_available_months bucket year = .ok [])
    ∧ (∀ (bucket : Bucket) (year month : String),
        (bucket (year ++ "/" ++ month ++ "/")).CommonPrefixes = some [] →
        get_available_days bucket year month = .ok [])
    ∧ (∀ (bucket : Bucket) (year month day : String),
        (bucket (year ++ "/" ++ month ++ "/" ++ day ++ "/")).CommonPrefixes
          = some [] →
        get_available_radars bucket year month day = .ok [])
    ∧ (∀ (bucket : Bucket) (stf : String → Int) (year month day radar : String),
        (bucket (year ++ "/" ++ month ++ "/" ++ day ++ "/" ++ radar ++ "/")).Contents
          = some [] →
        get_available_scans bucket stf year month day radar = .ok [])
    ∧ (∀ (bucket : Bucket) (stf : String → Int) (start stop us ue : PyDatetime)
        (radar : String),
        formattimerange start stop = .ok (us, ue) →
        (∀ p, (bucket p).Contents = some []) →
        get_available_scans_in_range bucket stf start stop radar = .ok []) := by
  refine ⟨?_, ?_, ?_, ?_, ?_, ?_⟩
  · intro bucket h
    unfold get_available_years
    rw [h]
    rfl
  · intro bucket year h
    unfold get_available_months
    rw [h]
    rfl
  · intro bucket year month h
    unfold get_available_days
    rw [h]
    rfl
  · intro bucket year month day h
    unfold get_available_radars
    rw [h]
    rfl
  · intro bucket stf year month day radar h
    unfold get_available_scans
    rw [h]
    rfl
  · intro bucket stf start stop us ue radar hf h
    unfold get_available_scans_in_range
    rw [hf]
    exact scans_fold_empty bucket stf h us ue radar _ []

/-- Witness for C3: -/
theorem claim_C3_witness :
    get_available_years
      (fun _ => { CommonPrefixes := some [], Contents := some [] }) = .ok []
    ∧ get_available_scans_in_range
        (fun _ => { CommonPrefixes := some [], Contents := some [] })
        (fun _ => 0) (mkUTC 2013 5 31 20 0 0) (mkUTC 2013 5 31 23 0 0) "KTLX"
      = .ok [] :=
  ⟨claim_C3_empty_is_ok.1 _ rfl,
   claim_C3_empty_is_ok.2.2.2.2.2 _ _ _ _ _ _ _ rfl (fun _ => rfl)⟩

/-- Claim C4: Time normalization maps each timezone-naive input to the same
wall-clock values relabeled as UTC (no instant shift), and each
timezone-aware input (in any zone) to a UTC datetime denoting the identical
absolute instant.  (For a naive datetime the "instant" is its wall clock read
as UTC.) -/
theorem claim_C4_time_normalizer (s e : PyDatetime)
    (hs : s.tzinfo = none ∨ is_tzaware s = true)
    (he : e.tzinfo = none ∨ is_tzaware e = true) :
    ∃ us ue, formattimerange s e = .ok (us, ue)
      ∧ us.tzinfo = some TZInfo.utc ∧ ue.tzinfo = some TZInfo.utc
      ∧ us.instant = s.instant ∧ ue.instant = e.instant
      ∧ (s.tzinfo = none → us.wall = s.wall)
      ∧ (e.tzinfo = none → ue.wall = e.wall) := by
  obtain ⟨us, hus⟩ := formatone_ok hs
  obtain ⟨ue, hue⟩ := formatone_ok he
  refine ⟨us, ue, ?_, formatone_tz_utc hus, formatone_tz_utc hue,
    formatone_instant hus, formatone_instant hue,
    fun hh => formatone_wall_naive hh hus, fun hh => formatone_wall_naive hh hue⟩
  unfold formattimerange
  rw [hus, hue]

/-- Witness for C4: A naive start (relabeled) and an aware non-UTC end
(offset +1 h, converted instant-preservingly). -/
theorem claim_C4_witness :
    ∃ us ue, formattimerange (mkNaive 2013 5 31 20 0 0)
        { wall := 7200, tzinfo := some (TZInfo.other (some 3600)) } = .ok (us, ue)
      ∧ us.tzinfo = some TZInfo.utc ∧ ue.tzinfo = some TZInfo.utc
      ∧ us.instant = (mkNaive 2013 5 31 20 0 0).instant
      ∧ ue.instant
          = ({ wall := 7200, tzinfo := some (TZInfo.other (some 3600)) } : PyDatetime).instant
      ∧ ((mkNaive 2013 5 31 20 0 0).tzinfo = none
          → us.wall = (mkNaive 2013 5 31 20 0 0).wall)
      ∧ (({ wall := 7200, tzinfo := some (TZInfo.other (some 3600)) } : PyDatetime).tzinfo = none
          → ue.wall
            = ({ wall := 7200, tzinfo := some (TZInfo.other (some 3600)) } : PyDatetime).wall) :=
  claim_C4_time_normalizer _ _ (Or.inl rfl) (Or.inr rfl)

/-- Claim C10: Time normalization is idempotent: applying `_formattimerange` to
its own output returns that output unchanged, because both output components
are timezone-aware UTC datetimes and UTC-aware inputs pass through as the
identity. -/
theorem claim_C10_idempotent (s e us ue : PyDatetime)
    (h : formattimerange s e = .ok (us, ue)) :
    formattimerange us ue = .ok (us, ue) := by
  unfold formattimerange at h
  cases h1 : formatone s with
  | error e1 =>
    rw [h1] at h
    simp at h
  | ok a =>
    rw [h1] at h
    cases h2 : formatone e with
    | error e2 =>
      rw [h2] at h
      simp at h
    | ok b =>
      rw [h2] at h
      simp at h
      obtain ⟨rfl, rfl⟩ := h
      unfold formattimerange
      rw [formatone_utc_id (formatone_tz_utc h1),
        formatone_utc_id (formatone_tz_utc h2)]

/-- Witness for C10: The output of normalizing a naive start and an aware
non-UTC end is a fixed point of the normalizer. -/
theorem claim_C10_witness :
    formattimerange
      { wall := daysFromCivil 2013 5 31 * 86400 + 72000
        tzinfo := some TZInfo.utc }
      { wall := 3600, tzinfo := some TZInfo.utc }
      = .ok ({ wall := daysFromCivil 2013 5 31 * 86400 + 72000
               tzinfo := some TZInfo.utc },
        { wall := 3600, tzinfo := some TZInfo.utc }) :=
  claim_C10_idempotent (mkNaive 2013 5 31 20 0 0)
    { wall := 7200, tzinfo := some (TZInfo.other (some 3600)) } _ _ rfl

/-- Claim C6: An entry whose key or prefix does not match the structural
pattern at the requested hierarchy depth is silently excluded (no error is
raised), and all matching entries are kept in the listing's order: each
listing call returns exactly the in-order successful parses of its response
entries. -/
theorem claim_C6_pattern_mismatch :
    (∀ (bucket : Bucket) (es : List String),
      (bucket "").CommonPrefixes = some es →
      get_available_years bucket = .ok (es.filterMap year_re))
    ∧ (∀ (bucket : Bucket) (year : String) (es : List String),
        (bucket (year ++ "/")).CommonPrefixes = some es →
        get_available_months bucket year = .ok (es.filterMap month_re))
    ∧ (∀ (bucket : Bucket) (year month : String) (es : List String),
        (bucket (year ++ "/" ++ month ++ "/")).CommonPrefixes = some es →
        get_available_days bucket year month = .ok (es.filterMap day_re))
    ∧ (∀ (bucket : Bucket) (year month day : String) (es : List String),
        (bucket (year ++ "/" ++ month ++ "/" ++ day ++ "/")).CommonPrefixes
          = some es →
        get_available_radars bucket year month day = .ok (es.filterMap radar_re))
    ∧ (∀ (bucket : Bucket) (stf : String → Int) (year month day radar : String)
        (es : List String),
        (bucket (year ++ "/" ++ month ++ "/" ++ day ++ "/" ++ radar ++ "/")).Contents
          = some es →
        get_available_scans bucket stf year month day radar
          = .ok (es.filterMap (fun k =>
              if (scan_re k).isSome then some (mkNexradAwsFile stf k) else none))) := by
  refine ⟨?_, ?_, ?_, ?_, ?_⟩
  · intro bucket es h
    unfold get_available_years
    rw [h]
    exact congrArg Except.ok (by simpa using foldl_collect year_re es [])
  · intro bucket year es h
    unfold get_available_months
    rw [h]
    exact congrArg Except.ok (by simpa using foldl_collect month_re es [])
  · intro bucket year month es h
    unfold get_available_days
    rw [h]
    exact congrArg Except.ok (by simpa using foldl_collect day_re es [])
  · intro bucket year month day es h
    unfold get_available_radars
    rw [h]
    exact congrArg Except.ok (by simpa using foldl_collect radar_re es [])
  · intro bucket stf year month day radar es h
    unfold get_available_scans
    rw [h]
    exact congrArg Except.ok
      (by simpa using foldl_collect_keyed scan_re (mkNexradAwsFile stf) es [])

/-- Witness for C6: A root listing with a junk entry between two year
prefixes, and a scan listing with a bare directory-marker key. -/
theorem claim_C6_witness :
    get_available_years
      (fun _ => { CommonPrefixes := some ["2013/", "junk", "1991/"]
                  Contents := none })
      = .ok (["2013/", "junk", "1991/"].filterMap year_re)
    ∧ get_available_scans
        (fun _ => { CommonPrefixes := none
                    Contents := some
                      ["2013/05/31/KTLX/KTLX20130531_000358_V06.gz",
                       "2013/05/31/KTLX/"] })
        (fun _ => 0) "2013" "05" "31" "KTLX"
      = .ok ((["2013/05/31/KTLX/KTLX20130531_000358_V06.gz",
          "2013/05/31/KTLX/"]).filterMap (fun k =>
            if (scan_re k).isSome
            then some (mkNexradAwsFile (fun _ => 0) k) else none)) :=
  ⟨claim_C6_pattern_mismatch.1 _ _ rfl,
   claim_C6_pattern_mismatch.2.2.2.2 _ _ _ _ _ _ _ rfl⟩

/-- Claim C7: When the normalized end precedes the normalized start, the day
enumeration is empty, and the range query returns an empty list for every
bucket and timestamp collaborator (so it issues no listing calls). -/
theorem claim_C7_reversed_range (bucket : Bucket) (stf : String → Int)
    (s e us ue : PyDatetime) (radar : String)
    (h : formattimerange s e = .ok (us, ue))
    (hlt : ue.instant < us.instant) :
    datetime_range us ue = []
    ∧ get_available_scans_in_range bucket stf s e radar = .ok [] := by
  have hneg : (ue.instant - us.instant).fdiv 86400 < 0 :=
    Int.fdiv_neg' (by omega) (by norm_num)
  have hz : (((ue.instant - us.instant).fdiv 86400 + 1)).toNat = 0 := by omega
  have hdr : datetime_range us ue = [] := by
    unfold datetime_range
    rw [hz]
    rfl
  refine ⟨hdr, ?_⟩
  unfold get_available_scans_in_range
  rw [h]
  simp only [hdr, List.foldlM_nil]
  rfl

/-- Witness for C7: A reversed interval (start 2013-06-02T01:00Z, end
2013-05-31T23:00Z). -/
theorem claim_C7_witness :
    datetime_range (mkUTC 2013 6 2 1 0 0) (mkUTC 2013 5 31 23 0 0) = []
    ∧ get_available_scans_in_range
        (fun _ => { CommonPrefixes := some [], Contents := some [] })
        (fun _ => 0) (mkUTC 2013 6 2 1 0 0) (mkUTC 2013 5 31 23 0 0) "KTLX"
      = .ok [] :=
  claim_C7_reversed_range _ _ _ _ _ _ _ rfl (by decide)

/-- Claim C8: A transfer failure on any one record aborts the whole batch: the
underlying transport error is propagated to the caller, no automatic retry is
attempted (the transport script would answer the next call with success, yet
the result is still the error), and no partial list of already-downloaded
results is returned: `download` yields the error, not a list. -/
theorem claim_C8_transfer_aborts_batch (env : RetrievalEnv)
    (basepath : String) (keep : Bool) (pre : List NexradAwsFile)
    (r : NexradAwsFile) (post : List NexradAwsFile)
    (lfs : List LocalNexradFile) (k te : Nat)
    (hpre : downloadFrom env basepath keep pre [] 0 = .ok (lfs, k))
    (hmk : make_directories env.makedirs env.isdir
      (create_filepath r basepath keep).1 = .ok ())
    (hfail : env.download_file k r.key (create_filepath r basepath keep).2
      = .error te)
    (_hretry : env.download_file (k + 1) r.key
      (create_filepath r basepath keep).2 = .ok ()) :
    download env (pre ++ r :: post) basepath keep
      = .error (.transfer te) := by
  unfold download
  rw [downloadFrom_append, hpre]
  simp only [downloadFrom, processRecord]
  rw [hmk]
  rw [hfail]
  rfl

/-- A sample record shared by the retrieval witnesses. -/
def sampleFile : NexradAwsFile :=
  { key := "2013/05/31/KTLX/KTLX20130531_000358_V06.gz"
    scan_time := { wall := 0, tzinfo := some TZInfo.utc } }

/-- The local result of downloading `sampleFile` flat into `/data`. -/
def sampleLocal : LocalNexradFile :=
  { awsfile := sampleFile, filepath := "/data/KTLX20130531_000358_V06.gz" }

/-- Retrieval environment whose transport script fails the second call
(index 1) and succeeds on every other call. -/
def c8env : RetrievalEnv where
  makedirs := fun _ => .ok ()
  isdir := fun _ => false
  download_file := fun n _ _ => if n = 1 then .error 7 else .ok ()

/-- Witness for C8: A two-record batch whose second transfer fails: the
whole call errors with the transport error even though the first record was
already transferred and a retry (call index 2) would have succeeded. -/
theorem claim_C8_witness :
    download c8env [sampleFile, sampleFile] "/data" false
      = .error (.transfer 7) :=
  claim_C8_transfer_aborts_batch c8env "/data" false [sampleFile] sampleFile
    [] [sampleLocal] 1 7 rfl rfl rfl rfl

/-- Claim C9: Ensuring a destination directory is idempotent: an "already
exists as a directory" failure (`EEXIST` and the path is a directory) is
swallowed and the call succeeds; any other directory-creation failure is
re-raised, and inside `download` it aborts the retrieval batch by propagating
the `OSError`. -/
theorem claim_C9_mkdir_idempotent :
    (∀ (mkd : String → Except OSError Unit) (isd : String → Bool)
      (path : String) (exc : OSError),
      mkd path = .error exc → exc.errno = EEXIST → isd path = true →
      make_directories mkd isd path = .ok ())
    ∧ (∀ (mkd : String → Except OSError Unit) (isd : String → Bool)
        (path : String) (exc : OSError),
        mkd path = .error exc →
        (exc.errno ≠ EEXIST ∨ isd path = false) →
        make_directories mkd isd path = .error exc)
    ∧ (∀ (env : RetrievalEnv) (basepath : String) (keep : Bool)
        (pre : List NexradAwsFile) (r : NexradAwsFile)
        (post : List NexradAwsFile) (lfs : List LocalNexradFile) (k : Nat)
        (exc : OSError),
        downloadFrom env basepath keep pre [] 0 = .ok (lfs, k) →
        env.makedirs (create_filepath r basepath keep).1 = .error exc →
        (exc.errno ≠ EEXIST
          ∨ env.isdir (create_filepath r basepath keep).1 = false) →
        download env (pre ++ r :: post) basepath keep
          = .error (.os exc)) := by
  have h2 : ∀ (mkd : String → Except OSError Unit) (isd : String → Bool)
      (path : String) (exc : OSError),
      mkd path = .error exc →
      (exc.errno ≠ EEXIST ∨ isd path = false) →
      make_directories mkd isd path = .error exc := by
    intro mkd isd path exc hm hcond
    unfold make_directories
    rw [hm]
    rcases hcond with hc | hc
    · simp [hc]
    · simp [hc]
  refine ⟨?_, h2, ?_⟩
  · intro mkd isd path exc hm he hd
    unfold make_directories
    rw [hm]
    simp [he, hd]
  · intro env basepath keep pre r post lfs k exc hpre hm hcond
    unfold download
    rw [downloadFrom_append, hpre]
    simp only [downloadFrom, processRecord]
    rw [h2 _ _ _ _ hm hcond]
    rfl

/-- Retrieval environment whose directory creation always fails with
`EACCES` (errno 13). -/
def c9env : RetrievalEnv where
  makedirs := fun _ => .error { errno := 13 }
  isdir := fun _ => true
  download_file := fun _ _ _ => .ok ()

/-- Witness for C9: `EEXIST` on an existing directory is tolerated; an
errno-13 failure is re-raised, and a batch with such a failure aborts with
the propagated `OSError`. -/
theorem claim_C9_witness :
    make_directories (fun _ => .error { errno := 17 }) (fun _ => true) "/data"
      = .ok ()
    ∧ make_directories (fun _ => .error { errno := 13 }) (fun _ => true) "/data"
      = .error { errno := 13 }
    ∧ download c9env [sampleFile] "/data" false
      = .error (.os { errno := 13 }) :=
  ⟨claim_C9_mkdir_idempotent.1 _ _ _ _ rfl rfl rfl,
   claim_C9_mkdir_idempotent.2.1 _ _ _ _ rfl (Or.inl (by decide)),
   claim_C9_mkdir_idempotent.2.2 c9env "/data" false [] sampleFile [] [] 0
     { errno := 13 } rfl rfl (Or.inl (by decide))⟩

end Nexradaws
